/-
Verification of the Djinn TLSNotary prover/verifier CLIs
(`src/tlsn-tools/src/bin/prover.rs`, `src/tlsn-tools/src/bin/verifier.rs`,
`src/tlsn-tools/src/lib.rs`).

Text is modelled as `List Char`.  The prover's and verifier's `main`
functions are embedded as sequential trace machines over an environment
record supplying the results of the external collaborators (network,
MPC engine, crypto provider); each completed effect appends an event to
a trace, so ordering and absence-of-effect claims become statements
about the trace list.
-/
import Mathlib

set_option autoImplicit false

namespace Djinn

/-- Text, modelled as a list of characters. -/
abbrev Str := List Char

/-! ## String utilities used by the prover and verifier -/

/-- Rust `str::to_lowercase`, modelled per-character (ASCII-adequate:
header names and redact entries in this program are ASCII). -/
def toLowerStr (s : Str) : Str := s.map Char.toLower

/-- Rust `str::trim`: drop leading and trailing whitespace. -/
def trimStr (s : Str) : Str :=
  ((s.dropWhile Char.isWhitespace).reverse.dropWhile Char.isWhitespace).reverse

/-- Rust `str::contains(needle)`: `needle` occurs as a contiguous
substring of `hay`. -/
def strContains : Str → Str → Bool
  | [], needle => needle.isEmpty
  | c :: t, needle => needle.isPrefixOf (c :: t) || strContains t needle

/-- `prover.rs` lines 253-254: a header is redacted when its lowercased
name contains some entry of the redact set as a substring.  This is the
spec's `should_redact(field_name, redact_set)` contract. -/
def shouldRedact (name : Str) (redactSet : List Str) : Bool :=
  redactSet.any (fun r => strContains (toLowerStr name) r)

/-- Rust `str::split(',')` (`prover.rs` line 92): split on every comma;
splitting the empty string yields `[[]]`, exactly as in Rust. -/
def splitComma : Str → List Str
  | [] => [[]]
  | c :: rest =>
    if c = ',' then [] :: splitComma rest
    else
      match splitComma rest with
      | [] => [[c]]
      | p :: ps => (c :: p) :: ps

/-- `prover.rs` lines 90-94: the redact set is built by splitting
`--redact-headers` on commas and trimming and lowercasing each piece. -/
def redactSetOf (arg : Str) : List Str :=
  (splitComma arg).map (fun s => toLowerStr (trimStr s))

/-- The blank-line separator `"\r\n\r\n"`. -/
def crlf2 : Str := '\r' :: '\n' :: '\r' :: '\n' :: []

/-- Scan for the leftmost occurrence of `crlf2`: returns the piece
before it, and (when found) the remainder after it. -/
def takeUntilBlank : Str → Str × Option Str
  | [] => ([], none)
  | c :: rest =>
    if crlf2.isPrefixOf (c :: rest) then ([], some (rest.drop 3))
    else
      let r := takeUntilBlank rest
      (c :: r.1, r.2)

/-- `verifier.rs` lines 89-93: `recv.split("\r\n\r\n").nth(1).unwrap_or("")`.
The second element of Rust's split is the piece of text between the end
of the first separator occurrence and the next occurrence (or the end). -/
def responseBody (recv : Str) : Str :=
  match (takeUntilBlank recv).2 with
  | none => []
  | some t => (takeUntilBlank t).1

/-- Modelled from the spec: "the portion of the received text after the
first blank-line sequence (`\r\n\r\n`)" — everything after the first
occurrence, for comparison with what the code computes. -/
def afterFirstBlank : Str → Option Str
  | [] => none
  | c :: rest =>
    if crlf2.isPrefixOf (c :: rest) then some (rest.drop 3)
    else afterFirstBlank rest

/-! ## HTTP transcript model (tlsn_formats `HttpTranscript` shape) -/

/-- A parsed HTTP header: name and value, independently addressable. -/
structure Header where
  name : Str
  value : Str
deriving DecidableEq

/-- A parsed HTTP request: target and headers (body unused by the
prover's disclosure logic beyond `without_data`). -/
structure HttpRequest where
  target : Str
  headers : List Header
deriving DecidableEq

/-- A parsed HTTP response: headers and optional body. -/
structure HttpResponse where
  headers : List Header
  body : Option Str
deriving DecidableEq

/-! ## Disclosure actions (prover.rs lines 246-270) -/

/-- A reveal action on the sent (request) side of the transcript. -/
inductive SentReveal where
  | withoutData
  | target (t : Str)
  | headerNameOnly (name : Str)
  | headerFull (name value : Str)
deriving DecidableEq

/-- A reveal action on the received (response) side of the transcript. -/
inductive RecvReveal where
  | withoutData
  | headerFull (name value : Str)
  | body (b : Str)
deriving DecidableEq

/-- `prover.rs` lines 246-260: reveal the request structure and target,
then for each header reveal only its name when `shouldRedact` holds and
the full header otherwise. -/
def revealSentActions (req : HttpRequest) (redactSet : List Str) : List SentReveal :=
  SentReveal.withoutData :: SentReveal.target req.target ::
    req.headers.map (fun h =>
      if shouldRedact h.name redactSet then SentReveal.headerNameOnly h.name
      else SentReveal.headerFull h.name h.value)

/-- `prover.rs` lines 262-270: reveal the full response — structure,
every header (name and value), and the body when present.  Takes no
redact set: response redaction is not implemented. -/
def revealRecvActions (resp : HttpResponse) : List RecvReveal :=
  RecvReveal.withoutData ::
    (resp.headers.map (fun h => RecvReveal.headerFull h.name h.value) ++
      match resp.body with
      | some b => [RecvReveal.body b]
      | none => [])

/-! ## Prover trace machine (prover.rs `main`) -/

/-- `lib.rs` line 2. -/
def MAX_SENT_DATA : Nat := 4096

/-- `lib.rs` line 3. -/
def MAX_RECV_DATA : Nat := 262144

/-- Externally observable effects of the prover, in program order. -/
inductive PEvent where
  | connectNotary
  | commit (maxSent maxRecv : Nat)
  | connectTarget
  | sendHttpRequest
  | finalize
  | parseTranscript
  | commitTranscript
  | prove
  | buildAttRequest
  | sendAttestation
  | recvAttestation
  | validateAttestation
  | revealSent (a : SentReveal)
  | revealRecv (a : RecvReveal)
  | buildPresentation
  | writeOutput
  | printSummary
deriving DecidableEq

/-- Error kinds of the prover's fallible (`?`-propagated) steps. -/
inductive ErrK where
  | connectNotary
  | commit
  | connectTarget
  | http
  | unexpectedStatus (code : Nat)
  | finalize
  | parse
  | commitTranscript
  | prove
  | buildAttRequest
  | sendAttestation
  | recvAttestation
  | deserializeAttestation
  | validate
  | buildPresentation
  | writeOutput
deriving DecidableEq

/-- Run outcome: clean success, a `?`-reported error (anyhow `Result`
path, process exits non-zero with the error), or a Rust panic (process
crash outside the `Result` path). -/
inductive Outcome where
  | ok
  | err (k : ErrK)
  | panic (msg : Str)
deriving DecidableEq

/-- `true` iff the outcome is a `?`-reported error. -/
def Outcome.isErr : Outcome → Bool
  | .err _ => true
  | _ => false

/-- Results supplied by the external collaborators (network, MPC
engine, HTTP stack, crypto provider) during one prover run. -/
structure ProverEnv where
  connectNotaryOk : Bool
  commitOk : Bool
  connectTargetOk : Bool
  httpOk : Bool
  /-- HTTP status code of the target server's response. -/
  status : Nat
  finalizeOk : Bool
  parseOk : Bool
  /-- Requests of the parsed `HttpTranscript` (same transcript bytes are
  parsed at lines 173 and 243, so the same result both times). -/
  parsedRequests : List HttpRequest
  /-- Responses of the parsed `HttpTranscript`. -/
  parsedResponses : List HttpResponse
  commitTranscriptOk : Bool
  proveOk : Bool
  /-- `tls_transcript.server_cert_chain()` (line 207). -/
  certChain : Option Str
  /-- `tls_transcript.server_signature()` (line 211). -/
  serverSig : Option Str
  buildAttOk : Bool
  sendAttOk : Bool
  recvAttOk : Bool
  deserializeAttOk : Bool
  validateOk : Bool
  buildPresOk : Bool
  writeOk : Bool
  /-- The `--redact-headers` argument string. -/
  redactHeadersArg : Str
deriving DecidableEq

/-- Presentation building (`prover.rs` lines 243-291): index `[0]` into
requests and responses (a Rust panic when empty), the reveal loops, the
presentation build, the output write, and the summary print. -/
def stagePresent (env : ProverEnv) : List PEvent × Outcome :=
  match env.parsedRequests with
  | [] => ([], .panic ("index out of bounds".toList))
  | req :: _ =>
    let sentEvents :=
      (revealSentActions req (redactSetOf env.redactHeadersArg)).map PEvent.revealSent
    match env.parsedResponses with
    | [] => (sentEvents, .panic ("index out of bounds".toList))
    | resp :: _ =>
      let recvEvents := (revealRecvActions resp).map PEvent.revealRecv
      if env.buildPresOk = false then (sentEvents ++ recvEvents, .err .buildPresentation)
      else if env.writeOk = false then
        (sentEvents ++ recvEvents ++ [PEvent.buildPresentation], .err .writeOutput)
      else
        (sentEvents ++ recvEvents ++
          [PEvent.buildPresentation, PEvent.writeOutput, PEvent.printSummary], .ok)

/-- Attestation validation (line 238). -/
def stageValidate (env : ProverEnv) : List PEvent × Outcome :=
  if env.validateOk = false then ([], .err .validate)
  else
    let r := stagePresent env
    (PEvent.validateAttestation :: r.1, r.2)

/-- Receive and deserialize the attestation (lines 232-234). -/
def stageRecvAtt (env : ProverEnv) : List PEvent × Outcome :=
  if env.recvAttOk = false then ([], .err .recvAttestation)
  else if env.deserializeAttOk = false then
    ([PEvent.recvAttestation], .err .deserializeAttestation)
  else
    let r := stageValidate env
    (PEvent.recvAttestation :: r.1, r.2)

/-- Send the serialized attestation request to the notary (lines 227-229). -/
def stageSendAtt (env : ProverEnv) : List PEvent × Outcome :=
  if env.sendAttOk = false then ([], .err .sendAttestation)
  else
    let r := stageRecvAtt env
    (PEvent.sendAttestation :: r.1, r.2)

/-- Build the attestation request with handshake data (lines 203-220):
`.expect(...)` on the server certificate chain and signature is a Rust
panic when the option is `None`. -/
def stageHandshake (env : ProverEnv) : List PEvent × Outcome :=
  match env.certChain with
  | none => ([], .panic ("server cert chain is present".toList))
  | some _ =>
    match env.serverSig with
    | none => ([], .panic ("server signature is present".toList))
    | some _ =>
      if env.buildAttOk = false then ([], .err .buildAttRequest)
      else
        let r := stageSendAtt env
        (PEvent.buildAttRequest :: r.1, r.2)

/-- `prover.prove` (lines 192-196). -/
def stageProve (env : ProverEnv) : List PEvent × Outcome :=
  if env.proveOk = false then ([], .err .prove)
  else
    let r := stageHandshake env
    (PEvent.prove :: r.1, r.2)

/-- Commit to transcript segments (lines 176-178). -/
def stageCommitTranscript (env : ProverEnv) : List PEvent × Outcome :=
  if env.commitTranscriptOk = false then ([], .err .commitTranscript)
  else
    let r := stageProve env
    (PEvent.commitTranscript :: r.1, r.2)

/-- Parse the HTTP transcript (line 173). -/
def stageParse (env : ProverEnv) : List PEvent × Outcome :=
  if env.parseOk = false then ([], .err .parse)
  else
    let r := stageCommitTranscript env
    (PEvent.parseTranscript :: r.1, r.2)

/-- Finalize the prover (line 170). -/
def stageFinalize (env : ProverEnv) : List PEvent × Outcome :=
  if env.finalizeOk = false then ([], .err .finalize)
  else
    let r := stageParse env
    (PEvent.finalize :: r.1, r.2)

/-- Status gate (lines 161-167): `bail!` when the response status is
not 200 — the spec's `UnexpectedStatus`. -/
def stageStatus (env : ProverEnv) : List PEvent × Outcome :=
  if env.status = 200 then
    let r := stageFinalize env
    (r.1, r.2)
  else ([], .err (.unexpectedStatus env.status))

/-- HTTP handshake and request send (lines 141-160). -/
def stageHttp (env : ProverEnv) : List PEvent × Outcome :=
  if env.httpOk = false then ([], .err .http)
  else
    let r := stageStatus env
    (PEvent.sendHttpRequest :: r.1, r.2)

/-- TCP connection to the target server (line 127). -/
def stageTarget (env : ProverEnv) : List PEvent × Outcome :=
  if env.connectTargetOk = false then ([], .err .connectTarget)
  else
    let r := stageHttp env
    (PEvent.connectTarget :: r.1, r.2)

/-- Commit to the `TlsCommitConfig` bounded by `MAX_SENT_DATA` and
`MAX_RECV_DATA` (lines 110-122). -/
def stageCommit (env : ProverEnv) : List PEvent × Outcome :=
  if env.commitOk = false then ([], .err .commit)
  else
    let r := stageTarget env
    (PEvent.commit MAX_SENT_DATA MAX_RECV_DATA :: r.1, r.2)

/-- The prover's `main` (prover.rs lines 96-293) as a trace machine:
connect to the notary, commit, connect to the target, HTTP exchange,
status gate, finalize, parse, commit transcript, prove, handshake data,
attestation round trip, validation, presentation build, output write. -/
def proverRun (env : ProverEnv) : List PEvent × Outcome :=
  if env.connectNotaryOk = false then ([], .err .connectNotary)
  else
    let r := stageCommit env
    (PEvent.connectNotary :: r.1, r.2)

/-! ## Partial transcript and the verifier (verifier.rs `main`) -/

/-- The tlsn-core `PartialTranscript` carried by a verified
`PresentationOutput`: per byte, the (text-modelled) byte value and
whether it was authenticated (disclosed).  `set_unauthed(b)` of the
library writes `b` over every unauthenticated byte; `sent_unsafe` /
`received_unsafe` expose the raw data. -/
structure PartialTranscript where
  sent : List (Char × Bool)
  recv : List (Char × Bool)
deriving DecidableEq

/-- `PartialTranscript::set_unauthed(b)`: every byte whose authenticated
flag is `false` is overwritten with `b`; authenticated bytes are kept. -/
def setUnauthed (pt : PartialTranscript) (b : Char) : PartialTranscript :=
  { sent := pt.sent.map (fun p => (if p.2 then p.1 else b, p.2)),
    recv := pt.recv.map (fun p => (if p.2 then p.1 else b, p.2)) }

/-- `sent_unsafe()` as text (via `String::from_utf8_lossy`). -/
def sentText (pt : PartialTranscript) : Str := pt.sent.map Prod.fst

/-- `received_unsafe()` as text (via `String::from_utf8_lossy`). -/
def recvText (pt : PartialTranscript) : Str := pt.recv.map Prod.fst

/-- The fields of a successful `presentation.verify` call
(`PresentationOutput`), as supplied by the external crypto provider. -/
structure VPresentationOutput where
  serverName : Option Str
  /-- `connection_info.time` (seconds since the epoch). -/
  time : Nat
  transcript : PartialTranscript
deriving DecidableEq

/-- The JSON object the verifier prints, with only the fields the
relevant branch sets. -/
structure VJson where
  status : Str
  error : Option Str := none
  expected : Option Str := none
  actual : Option Str := none
  server_name : Option Str := none
  notary_key : Option Str := none
  notary_key_alg : Option Str := none
  connection_time : Option Nat := none
  request : Option Str := none
  response_body : Option Str := none
  response_full : Option Str := none
deriving DecidableEq

/-- Externally observable effects of the verifier, in program order. -/
inductive VEvent where
  | readFile
  | deserialize
  | callVerify
  | printJson (j : VJson)
  | exitProcess (code : Nat)
deriving DecidableEq

/-- Verifier run outcome: normal `Ok(())` return, a `?`-reported error,
or `std::process::exit(code)`. -/
inductive VOutcome where
  | ok
  | err (msg : Str)
  | exited (code : Nat)
deriving DecidableEq

/-- Inputs of one verifier run: the CLI argument, the presentation's
embedded key data, and the results of the external collaborators. -/
structure VerifierEnv where
  readOk : Bool
  deserializeOk : Bool
  /-- `hex::encode(presentation.verifying_key().data)`. -/
  presKeyHex : Str
  /-- `verifying_key().alg` rendered as text. -/
  keyAlg : Str
  /-- The optional `--notary-pubkey` argument. -/
  notaryPubkeyArg : Option Str
  /-- Result of `presentation.verify(&crypto_provider)`. -/
  verifyResult : Except Str VPresentationOutput

/-- `verifier.rs` lines 54-59: the key-mismatch JSON object. -/
def mismatchJson (expected actual : Str) : VJson :=
  { status := "failed".toList,
    error := some ("notary public key mismatch".toList),
    expected := some expected,
    actual := some actual }

/-- `verifier.rs` lines 107-110: the verification-failure JSON object. -/
def failedJson (e : Str) : VJson :=
  { status := "failed".toList, error := some e }

/-- `verifier.rs` lines 76-104: the success JSON object.  The partial
transcript first has every unauthenticated byte set to `'X'` (line 83),
then the sent and received data are exposed as text, and the response
body is the second piece of splitting the received text on
`"\r\n\r\n"`. -/
def verifiedJson (out : VPresentationOutput) (keyHex alg : Str) : VJson :=
  let pt := setUnauthed out.transcript 'X'
  let sent := sentText pt
  let recv := recvText pt
  { status := "verified".toList,
    server_name := some (out.serverName.getD []),
    notary_key := some keyHex,
    notary_key_alg := some alg,
    connection_time := some out.time,
    request := some sent,
    response_body := some (responseBody recv),
    response_full := some recv }

/-- The verification phase (`verifier.rs` lines 67-120): call `verify`,
print the resulting JSON, and exit 1 when the status is "failed". -/
def verifyPhase (env : VerifierEnv) (t0 : List VEvent) : List VEvent × VOutcome :=
  match env.verifyResult with
  | .ok out =>
    (t0 ++ [VEvent.callVerify,
      VEvent.printJson (verifiedJson out env.presKeyHex env.keyAlg)], .ok)
  | .error e =>
    (t0 ++ [VEvent.callVerify, VEvent.printJson (failedJson e),
      VEvent.exitProcess 1], .exited 1)

/-- The verifier's `main` (verifier.rs lines 35-121) as a trace machine:
read the file, deserialize, compare the embedded key against
`--notary-pubkey` when supplied (mismatch prints the failure JSON and
exits 1 before any verification), then verify and report. -/
def verifierRun (env : VerifierEnv) : List VEvent × VOutcome :=
  if env.readOk = false then ([], .err ("failed to read presentation".toList))
  else if env.deserializeOk = false then
    ([VEvent.readFile], .err ("failed to deserialize presentation".toList))
  else
    let t0 := [VEvent.readFile, VEvent.deserialize]
    match env.notaryPubkeyArg with
    | some expected =>
      if env.presKeyHex ≠ expected then
        (t0 ++ [VEvent.printJson (mismatchJson expected env.presKeyHex),
          VEvent.exitProcess 1], .exited 1)
      else verifyPhase env t0
    | none => verifyPhase env t0

/-! ## Concrete sample values for witnesses and counterexamples -/

/-- A sample request with one matching and one non-matching header. -/
def reqA : HttpRequest :=
  { target := ("/v4/odds".toList),
    headers := [{ name := ("Host".toList), value := ("api.example.com".toList) },
                { name := ("X-Api-Key".toList), value := ("secret123".toList) }] }

/-- A sample response with one header and a body. -/
def respA : HttpResponse :=
  { headers := [{ name := ("Content-Type".toList), value := ("application/json".toList) }],
    body := some ("oddsdata".toList) }

/-- A prover environment in which every external step succeeds. -/
def baseOkEnv : ProverEnv :=
  { connectNotaryOk := true, commitOk := true, connectTargetOk := true,
    httpOk := true, status := 200, finalizeOk := true, parseOk := true,
    parsedRequests := [reqA], parsedResponses := [respA],
    commitTranscriptOk := true, proveOk := true,
    certChain := some ("certbytes".toList), serverSig := some ("sigbytes".toList),
    buildAttOk := true, sendAttOk := true, recvAttOk := true,
    deserializeAttOk := true, validateOk := true, buildPresOk := true,
    writeOk := true,
    redactHeadersArg := ("authorization,apikey,x-api-key".toList) }

/-- Environment whose parsed transcript has two requests and two
responses, with every external step succeeding. -/
def c4Env : ProverEnv :=
  { baseOkEnv with parsedRequests := [reqA, reqA], parsedResponses := [respA, respA] }

/-- Environment in which the TLS transcript carries no server
certificate chain. -/
def c5Env : ProverEnv := { baseOkEnv with certChain := none }

/-- Received text whose body itself contains a blank-line sequence. -/
def c7ex : Str := ("HTTP OK\r\n\r\nalpha\r\n\r\nbeta".toList)

/-- A sample partial transcript: authenticated and unauthenticated
bytes on both sides. -/
def samplePT : PartialTranscript :=
  { sent := [('G', true), ('E', true), ('s', false), ('t', false)],
    recv := [('O', true), ('K', false)] }

/-- A sample successful verification output. -/
def sampleVOut : VPresentationOutput :=
  { serverName := some ("api.example.com".toList), time := 1700000000,
    transcript := samplePT }

/-- A verifier environment that reaches successful verification. -/
def vOkEnv : VerifierEnv :=
  { readOk := true, deserializeOk := true,
    presKeyHex := ("aabbcc".toList), keyAlg := ("secp256k1".toList),
    notaryPubkeyArg := none, verifyResult := .ok sampleVOut }

/-- A verifier environment invoked with a `--notary-pubkey` that does
not match the presentation's embedded key. -/
def vMismatchEnv : VerifierEnv :=
  { vOkEnv with notaryPubkeyArg := some ("deadbeef".toList) }

/-! ## Helper lemmas -/

/-- `strContains` decides the substring (infix) relation. -/
theorem strContains_iff (hay needle : Str) :
    strContains hay needle = true ↔ needle <:+: hay := by
  induction hay with
  | nil =>
    simp [strContains, List.isEmpty_iff]
  | cons c t ih =>
    simp [strContains, List.isPrefixOf_iff_prefix, ih, List.infix_cons_iff]

/-- The empty string is a substring of every string. -/
theorem strContains_nil (hay : Str) : strContains hay [] = true := by
  cases hay <;> simp [strContains]

/-- The remainder component of `takeUntilBlank` is exactly the
spec-worded "portion after the first blank-line sequence". -/
theorem takeUntilBlank_snd (l : Str) : (takeUntilBlank l).2 = afterFirstBlank l := by
  induction l with
  | nil => rfl
  | cons c t ih =>
    by_cases h : crlf2.isPrefixOf (c :: t) = true
    · simp [takeUntilBlank, afterFirstBlank, h]
    · simp [takeUntilBlank, afterFirstBlank, h, ih]

/-- When every step through `prove` succeeds, the run is the fixed
prefix of events followed by the handshake-data stage. -/
theorem proverRun_preHandshake (env : ProverEnv)
    (h1 : env.connectNotaryOk = true) (h2 : env.commitOk = true)
    (h3 : env.connectTargetOk = true) (h4 : env.httpOk = true)
    (h5 : env.status = 200) (h6 : env.finalizeOk = true) (h7 : env.parseOk = true)
    (h8 : env.commitTranscriptOk = true) (h9 : env.proveOk = true) :
    proverRun env =
      ([PEvent.connectNotary, PEvent.commit MAX_SENT_DATA MAX_RECV_DATA,
        PEvent.connectTarget, PEvent.sendHttpRequest, PEvent.finalize,
        PEvent.parseTranscript, PEvent.commitTranscript, PEvent.prove]
        ++ (stageHandshake env).1, (stageHandshake env).2) := by
  simp [proverRun, stageCommit, stageTarget, stageHttp, stageStatus, stageFinalize,
    stageParse, stageCommitTranscript, stageProve, h1, h2, h3, h4, h5, h6, h7, h8, h9]

/-- When additionally the handshake data is present and the attestation
round trip succeeds, the run is the fixed prefix followed by the
presentation stage. -/
theorem proverRun_pipeline (env : ProverEnv) (cc sg : Str)
    (h1 : env.connectNotaryOk = true) (h2 : env.commitOk = true)
    (h3 : env.connectTargetOk = true) (h4 : env.httpOk = true)
    (h5 : env.status = 200) (h6 : env.finalizeOk = true) (h7 : env.parseOk = true)
    (h8 : env.commitTranscriptOk = true) (h9 : env.proveOk = true)
    (hc : env.certChain = some cc) (hs : env.serverSig = some sg)
    (h10 : env.buildAttOk = true) (h11 : env.sendAttOk = true)
    (h12 : env.recvAttOk = true) (h13 : env.deserializeAttOk = true)
    (h14 : env.validateOk = true) :
    proverRun env =
      ([PEvent.connectNotary, PEvent.commit MAX_SENT_DATA MAX_RECV_DATA,
        PEvent.connectTarget, PEvent.sendHttpRequest, PEvent.finalize,
        PEvent.parseTranscript, PEvent.commitTranscript, PEvent.prove,
        PEvent.buildAttRequest, PEvent.sendAttestation, PEvent.recvAttestation,
        PEvent.validateAttestation]
        ++ (stagePresent env).1, (stagePresent env).2) := by
  rw [proverRun_preHandshake env h1 h2 h3 h4 h5 h6 h7 h8 h9]
  simp [stageHandshake, hc, hs, h10, stageSendAtt, h11, stageRecvAtt, h12, h13,
    stageValidate, h14]

/-- Every header name is redacted under the redact set built from the
empty argument string. -/
theorem shouldRedact_of_empty_arg (n : Str) : shouldRedact n (redactSetOf []) = true := by
  simp [shouldRedact, redactSetOf, splitComma, trimStr, toLowerStr, strContains_nil]

/-! ## Claims -/

/-- C7 counterexample: when the body itself contains a blank-line
sequence, the reported `response_body` is not the portion of the
received text after the first blank-line sequence — Rust's
`split(..).nth(1)` stops at the second occurrence. -/
theorem response_body_not_all_after_first_blank :
    responseBody c7ex = ("alpha".toList) ∧
    afterFirstBlank c7ex = some ("alpha\r\n\r\nbeta".toList) ∧
    responseBody c7ex ≠ (afterFirstBlank c7ex).getD [] := by
  decide

/-- C7 (amended): the Verifier's reported `response_body` is the text
strictly between the first blank-line sequence and the following one
(the second piece of splitting on every occurrence of `\r\n\r\n`); when
the received text contains no blank-line sequence it is the empty
string, and no error is raised in either case. -/
theorem response_body_between_blanks (recv : Str) :
    (afterFirstBlank recv = none → responseBody recv = []) ∧
    (∀ t, afterFirstBlank recv = some t → responseBody recv = (takeUntilBlank t).1) := by
  constructor
  · intro h
    simp [responseBody, takeUntilBlank_snd, h]
  · intro t h
    simp [responseBody, takeUntilBlank_snd, h]

/-- C7 witness: on a concrete received text with one blank-line
sequence, the theorem yields the full remainder as the body. -/
theorem response_body_between_blanks_witness :
    responseBody ("h\r\n\r\nbody".toList) = (takeUntilBlank ("body".toList)).1 :=
  (response_body_between_blanks ("h\r\n\r\nbody".toList)).2 ("body".toList) (by decide)

/-- C10: the redact set is the comma-split, trimmed, lowercased pieces
of the `--redact-headers` string; the empty string argument yields the
set containing the empty string, which is a substring of every header
name, so every request header is revealed name-only (its value is never
revealed in full). -/
theorem empty_redact_arg_redacts_every_header (req : HttpRequest) (h : Header)
    (hmem : h ∈ req.headers) :
    (∀ s, redactSetOf s = (splitComma s).map (fun p => toLowerStr (trimStr p))) ∧
    redactSetOf [] = [[]] ∧
    shouldRedact h.name (redactSetOf []) = true ∧
    SentReveal.headerNameOnly h.name ∈ revealSentActions req (redactSetOf []) ∧
    (∀ v, SentReveal.headerFull h.name v ∉ revealSentActions req (redactSetOf [])) := by
  refine ⟨fun s => rfl, rfl, shouldRedact_of_empty_arg h.name, ?_, ?_⟩
  · exact List.mem_cons_of_mem _ (List.mem_cons_of_mem _
      (List.mem_map.mpr ⟨h, hmem, by simp [shouldRedact_of_empty_arg]⟩))
  · intro v hv
    simp only [revealSentActions, List.mem_cons, List.mem_map] at hv
    rcases hv with h1 | h1 | ⟨h', _, heq⟩
    · exact SentReveal.noConfusion h1
    · exact SentReveal.noConfusion h1
    · rw [shouldRedact_of_empty_arg h'.name] at heq
      simp at heq

/-- C10 witness: with the empty redact argument, the concrete request
header `Host` is revealed name-only. -/
theorem empty_redact_arg_redacts_every_header_witness :
    SentReveal.headerNameOnly ("Host".toList) ∈ revealSentActions reqA (redactSetOf []) :=
  (empty_redact_arg_redacts_every_header reqA
      { name := ("Host".toList), value := ("api.example.com".toList) }
      (by decide)).2.2.2.1

/-- C1: a request header is revealed name-only exactly when its
lowercased name contains some lowercased (trimmed) entry of the redact
set as a substring, and is revealed in full otherwise; for a matched
header no reveal action carries its value (the Verifier can observe the
name but never the value), while its name-only reveal is present. -/
theorem header_redaction_policy (arg : Str) (req : HttpRequest) (h : Header)
    (hmem : h ∈ req.headers) :
    (shouldRedact h.name (redactSetOf arg) = true ↔
      ∃ p ∈ splitComma arg, toLowerStr (trimStr p) <:+: toLowerStr h.name) ∧
    (shouldRedact h.name (redactSetOf arg) = true →
      SentReveal.headerNameOnly h.name ∈ revealSentActions req (redactSetOf arg) ∧
      ∀ v, SentReveal.headerFull h.name v ∉ revealSentActions req (redactSetOf arg)) ∧
    (shouldRedact h.name (redactSetOf arg) = false →
      SentReveal.headerFull h.name h.value ∈ revealSentActions req (redactSetOf arg)) := by
  refine ⟨?_, fun hred => ⟨?_, ?_⟩, fun hred => ?_⟩
  · simp [shouldRedact, redactSetOf, List.any_map, List.any_eq_true, Function.comp,
      strContains_iff]
  · exact List.mem_cons_of_mem _ (List.mem_cons_of_mem _
      (List.mem_map.mpr ⟨h, hmem, by simp [hred]⟩))
  · intro v hv
    simp only [revealSentActions, List.mem_cons, List.mem_map] at hv
    rcases hv with h1 | h1 | ⟨h', _, heq⟩
    · exact SentReveal.noConfusion h1
    · exact SentReveal.noConfusion h1
    · by_cases hr : shouldRedact h'.name (redactSetOf arg) = true
      · rw [if_pos hr] at heq
        simp at heq
      · rw [if_neg hr] at heq
        obtain ⟨hn, -⟩ := SentReveal.headerFull.inj heq
        rw [hn] at hr
        exact hr hred
  · exact List.mem_cons_of_mem _ (List.mem_cons_of_mem _
      (List.mem_map.mpr ⟨h, hmem, by simp [hred]⟩))

/-- C1 witness: with redact set built from `"x-api-key"`, the concrete
header `X-Api-Key` is revealed name-only. -/
theorem header_redaction_policy_witness :
    SentReveal.headerNameOnly ("X-Api-Key".toList) ∈
      revealSentActions reqA (redactSetOf ("x-api-key".toList)) :=
  ((header_redaction_policy ("x-api-key".toList) reqA
      { name := ("X-Api-Key".toList), value := ("secret123".toList) }
      (by decide)).2.1 (by decide)).1

/-- C2: when `--notary-pubkey` is supplied and differs from the hex
encoding of the presentation's embedded verifying key, the verifier
prints the JSON object with status "failed" and error "notary public
key mismatch" and exits with status 1, and `verify` is never called. -/
theorem notary_key_mismatch_aborts (env : VerifierEnv) (expected : Str)
    (h1 : env.readOk = true) (h2 : env.deserializeOk = true)
    (h3 : env.notaryPubkeyArg = some expected) (h4 : env.presKeyHex ≠ expected) :
    verifierRun env =
      ([VEvent.readFile, VEvent.deserialize,
        VEvent.printJson (mismatchJson expected env.presKeyHex),
        VEvent.exitProcess 1], VOutcome.exited 1) ∧
    VEvent.callVerify ∉ (verifierRun env).1 ∧
    (mismatchJson expected env.presKeyHex).status = ("failed".toList) ∧
    (mismatchJson expected env.presKeyHex).error =
      some ("notary public key mismatch".toList) := by
  have hrun : verifierRun env =
      ([VEvent.readFile, VEvent.deserialize,
        VEvent.printJson (mismatchJson expected env.presKeyHex),
        VEvent.exitProcess 1], VOutcome.exited 1) := by
    simp [verifierRun, h1, h2, h3, h4]
  refine ⟨hrun, ?_, rfl, rfl⟩
  rw [hrun]
  simp

/-- C2 witness: the concrete mismatching environment aborts with exit
code 1 and never calls `verify`. -/
theorem notary_key_mismatch_aborts_witness :
    VEvent.callVerify ∉ (verifierRun vMismatchEnv).1 ∧
    (verifierRun vMismatchEnv).2 = VOutcome.exited 1 := by
  have h := notary_key_mismatch_aborts vMismatchEnv ("deadbeef".toList)
    rfl rfl rfl (by decide)
  exact ⟨h.2.1, by rw [h.1]⟩

/-- C6: on successful verification the printed JSON exposes the sent
and received transcript as text in which every unauthenticated byte has
been replaced by the sentinel byte `'X'` and every authenticated byte
is the real transcript byte. -/
theorem verified_output_masks_unauthed (env : VerifierEnv) (out : VPresentationOutput)
    (h1 : env.readOk = true) (h2 : env.deserializeOk = true)
    (h3 : env.notaryPubkeyArg = none) (h4 : env.verifyResult = Except.ok out) :
    VEvent.printJson (verifiedJson out env.presKeyHex env.keyAlg) ∈ (verifierRun env).1 ∧
    (verifiedJson out env.presKeyHex env.keyAlg).request =
      some (sentText (setUnauthed out.transcript 'X')) ∧
    (verifiedJson out env.presKeyHex env.keyAlg).response_full =
      some (recvText (setUnauthed out.transcript 'X')) ∧
    (∀ i : Nat, (sentText (setUnauthed out.transcript 'X'))[i]? =
      (out.transcript.sent[i]?).map (fun p => if p.2 then p.1 else 'X')) ∧
    (∀ i : Nat, (recvText (setUnauthed out.transcript 'X'))[i]? =
      (out.transcript.recv[i]?).map (fun p => if p.2 then p.1 else 'X')) := by
  refine ⟨?_, rfl, rfl, ?_, ?_⟩
  · simp [verifierRun, h1, h2, h3, verifyPhase, h4]
  · intro i
    simp only [sentText, setUnauthed, List.map_map, List.getElem?_map]
    cases out.transcript.sent[i]? with
    | none => rfl
    | some p => rfl
  · intro i
    simp only [recvText, setUnauthed, List.map_map, List.getElem?_map]
    cases out.transcript.recv[i]? with
    | none => rfl
    | some p => rfl

/-- C6 witness: on the concrete sample transcript the masked sent text
is `GEXX` — authenticated bytes real, unauthenticated bytes `X`. -/
theorem verified_output_masks_unauthed_witness :
    (verifiedJson sampleVOut vOkEnv.presKeyHex vOkEnv.keyAlg).request =
      some (sentText (setUnauthed sampleVOut.transcript 'X')) ∧
    sentText (setUnauthed sampleVOut.transcript 'X') = ("GEXX".toList) := by
  have h := verified_output_masks_unauthed vOkEnv sampleVOut rfl rfl rfl rfl
  exact ⟨h.2.1, by decide⟩

/-- C3: when the target server's response status is not 200, the prover
run ends with the `UnexpectedStatus` error, no attestation request is
ever sent to the notary, and no output file is written. -/
theorem non200_aborts_before_attestation (env : ProverEnv)
    (h1 : env.connectNotaryOk = true) (h2 : env.commitOk = true)
    (h3 : env.connectTargetOk = true) (h4 : env.httpOk = true)
    (h5 : env.status ≠ 200) :
    (proverRun env).2 = Outcome.err (ErrK.unexpectedStatus env.status) ∧
    PEvent.sendAttestation ∉ (proverRun env).1 ∧
    PEvent.writeOutput ∉ (proverRun env).1 := by
  have hrun : proverRun env =
      ([PEvent.connectNotary, PEvent.commit MAX_SENT_DATA MAX_RECV_DATA,
        PEvent.connectTarget, PEvent.sendHttpRequest],
       Outcome.err (ErrK.unexpectedStatus env.status)) := by
    simp [proverRun, stageCommit, stageTarget, stageHttp, stageStatus,
      h1, h2, h3, h4, h5]
  rw [hrun]
  exact ⟨rfl, by simp, by simp⟩

/-- C3 witness: a concrete run in which the target answers 404 aborts
with `UnexpectedStatus 404` and sends no attestation request. -/
theorem non200_aborts_before_attestation_witness :
    (proverRun { baseOkEnv with status := 404 }).2 =
      Outcome.err (ErrK.unexpectedStatus 404) ∧
    PEvent.sendAttestation ∉ (proverRun { baseOkEnv with status := 404 }).1 ∧
    PEvent.writeOutput ∉ (proverRun { baseOkEnv with status := 404 }).1 :=
  non200_aborts_before_attestation { baseOkEnv with status := 404 }
    rfl rfl rfl rfl (by decide)

/-- C9: in every prover run that opens the TCP connection to the
target, the commit to the `TlsCommitConfig` bounded by the fixed
`MAX_SENT_DATA = 4096` and `MAX_RECV_DATA = 262144` completes strictly
before the target connection is opened. -/
theorem commit_config_precedes_target_connect (env : ProverEnv)
    (h : PEvent.connectTarget ∈ (proverRun env).1) :
    (MAX_SENT_DATA = 4096 ∧ MAX_RECV_DATA = 262144) ∧
    ∃ rest, (proverRun env).1 =
      PEvent.connectNotary :: PEvent.commit 4096 262144 ::
        PEvent.connectTarget :: rest := by
  refine ⟨⟨rfl, rfl⟩, ?_⟩
  by_cases h1 : env.connectNotaryOk = false
  · simp [proverRun, h1] at h
  · have h1t : env.connectNotaryOk = true := by simpa using h1
    by_cases h2 : env.commitOk = false
    · simp [proverRun, stageCommit, h1t, h2] at h
    · have h2t : env.commitOk = true := by simpa using h2
      by_cases h3 : env.connectTargetOk = false
      · simp [proverRun, stageCommit, stageTarget, h1t, h2t, h3] at h
      · have h3t : env.connectTargetOk = true := by simpa using h3
        exact ⟨(stageHttp env).1,
          by simp [proverRun, stageCommit, stageTarget, h1t, h2t, h3t,
            MAX_SENT_DATA, MAX_RECV_DATA]⟩

/-- C9 witness: the all-successful concrete run contains the target
connection, and its trace starts with notary connect, the bounded
commit, then the target connect. -/
theorem commit_config_precedes_target_connect_witness :
    ∃ rest, (proverRun baseOkEnv).1 =
      PEvent.connectNotary :: PEvent.commit 4096 262144 ::
        PEvent.connectTarget :: rest :=
  (commit_config_precedes_target_connect baseOkEnv (by decide)).2

/-- C4 counterexample: a run whose transcript parses into two requests
and two responses completes with `Outcome.ok` — no shape failure of any
kind is raised, refuting "fails whenever the transcript does not
contain exactly one request and exactly one response". -/
theorem two_requests_two_responses_accepted :
    c4Env.parsedRequests.length = 2 ∧ c4Env.parsedResponses.length = 2 ∧
    (proverRun c4Env).2 = Outcome.ok ∧ (proverRun c4Env).2.isErr = false := by
  refine ⟨rfl, rfl, ?_, ?_⟩ <;> decide

/-- C4 (amended): the prover performs no transcript shape check.  With
zero requests or zero responses it crashes with an index-out-of-bounds
panic during presentation building (not a reported error); with one or
more of each it completes successfully, using only the first pair. -/
theorem transcript_shape_unchecked (env : ProverEnv) (cc sg : Str)
    (h1 : env.connectNotaryOk = true) (h2 : env.commitOk = true)
    (h3 : env.connectTargetOk = true) (h4 : env.httpOk = true)
    (h5 : env.status = 200) (h6 : env.finalizeOk = true) (h7 : env.parseOk = true)
    (h8 : env.commitTranscriptOk = true) (h9 : env.proveOk = true)
    (hc : env.certChain = some cc) (hs : env.serverSig = some sg)
    (h10 : env.buildAttOk = true) (h11 : env.sendAttOk = true)
    (h12 : env.recvAttOk = true) (h13 : env.deserializeAttOk = true)
    (h14 : env.validateOk = true) (h15 : env.buildPresOk = true)
    (h16 : env.writeOk = true) :
    (env.parsedRequests = [] →
      (proverRun env).2 = Outcome.panic ("index out of bounds".toList)) ∧
    (env.parsedRequests ≠ [] → env.parsedResponses = [] →
      (proverRun env).2 = Outcome.panic ("index out of bounds".toList)) ∧
    (env.parsedRequests ≠ [] → env.parsedResponses ≠ [] →
      (proverRun env).2 = Outcome.ok) := by
  have hrun := proverRun_pipeline env cc sg h1 h2 h3 h4 h5 h6 h7 h8 h9 hc hs
    h10 h11 h12 h13 h14
  rw [hrun]
  refine ⟨?_, ?_, ?_⟩
  · intro hreq
    simp [stagePresent, hreq]
  · intro hreq hresp
    obtain ⟨r, l, hr⟩ := List.exists_cons_of_ne_nil hreq
    simp [stagePresent, hr, hresp]
  · intro hreq hresp
    obtain ⟨r, l, hr⟩ := List.exists_cons_of_ne_nil hreq
    obtain ⟨p, m, hp⟩ := List.exists_cons_of_ne_nil hresp
    simp [stagePresent, hr, hp, h15, h16]

/-- C4 witness: a concrete run whose transcript parses into zero
requests panics with index-out-of-bounds. -/
theorem transcript_shape_unchecked_witness :
    (proverRun { baseOkEnv with parsedRequests := [] }).2 =
      Outcome.panic ("index out of bounds".toList) :=
  (transcript_shape_unchecked { baseOkEnv with parsedRequests := [] }
      ("certbytes".toList) ("sigbytes".toList)
      rfl rfl rfl rfl rfl rfl rfl rfl rfl rfl rfl rfl rfl rfl rfl rfl rfl rfl).1 rfl

/-- C5 counterexample: with the server certificate chain absent, the
prover's outcome is a Rust panic (from `.expect(...)`), not a reported
error result — refuting "a reported fatal failure, not an unreported
crash". -/
theorem missing_cert_chain_panics :
    (proverRun c5Env).2 = Outcome.panic ("server cert chain is present".toList) ∧
    (proverRun c5Env).2.isErr = false := by
  refine ⟨?_, ?_⟩ <;> decide

/-- C5 (amended): when the TLS transcript's server certificate chain or
server signature is absent, the prover crashes via an `.expect(...)`
panic (outside the error-reporting path), before any attestation
request is sent and without writing output. -/
theorem missing_handshake_data_panics (env : ProverEnv)
    (h1 : env.connectNotaryOk = true) (h2 : env.commitOk = true)
    (h3 : env.connectTargetOk = true) (h4 : env.httpOk = true)
    (h5 : env.status = 200) (h6 : env.finalizeOk = true) (h7 : env.parseOk = true)
    (h8 : env.commitTranscriptOk = true) (h9 : env.proveOk = true) :
    (env.certChain = none →
      (proverRun env).2 = Outcome.panic ("server cert chain is present".toList) ∧
      PEvent.sendAttestation ∉ (proverRun env).1 ∧
      PEvent.writeOutput ∉ (proverRun env).1) ∧
    (∀ cc, env.certChain = some cc → env.serverSig = none →
      (proverRun env).2 = Outcome.panic ("server signature is present".toList) ∧
      PEvent.sendAttestation ∉ (proverRun env).1 ∧
      PEvent.writeOutput ∉ (proverRun env).1) := by
  have hrun := proverRun_preHandshake env h1 h2 h3 h4 h5 h6 h7 h8 h9
  constructor
  · intro hc
    rw [hrun]
    refine ⟨by simp [stageHandshake, hc], ?_, ?_⟩ <;> simp [stageHandshake, hc]
  · intro cc hc hs
    rw [hrun]
    refine ⟨by simp [stageHandshake, hc, hs], ?_, ?_⟩ <;> simp [stageHandshake, hc, hs]

/-- C5 witness: the concrete run with no certificate chain panics with
the `.expect` message. -/
theorem missing_handshake_data_panics_witness :
    (proverRun c5Env).2 = Outcome.panic ("server cert chain is present".toList) ∧
    PEvent.sendAttestation ∉ (proverRun c5Env).1 :=
  let h := (missing_handshake_data_panics c5Env
    rfl rfl rfl rfl rfl rfl rfl rfl rfl).1 rfl
  ⟨h.1, h.2.1⟩

/-- C8: whenever presentation building is reached, the full response is
revealed regardless of the redact set (the environment's redact
argument is arbitrary): the response structure, every response header
with name and value, and the body when present. -/
theorem response_revealed_fully (env : ProverEnv) (cc sg : Str)
    (req : HttpRequest) (lreq : List HttpRequest)
    (resp : HttpResponse) (lresp : List HttpResponse)
    (h1 : env.connectNotaryOk = true) (h2 : env.commitOk = true)
    (h3 : env.connectTargetOk = true) (h4 : env.httpOk = true)
    (h5 : env.status = 200) (h6 : env.finalizeOk = true) (h7 : env.parseOk = true)
    (h8 : env.commitTranscriptOk = true) (h9 : env.proveOk = true)
    (hc : env.certChain = some cc) (hs : env.serverSig = some sg)
    (h10 : env.buildAttOk = true) (h11 : env.sendAttOk = true)
    (h12 : env.recvAttOk = true) (h13 : env.deserializeAttOk = true)
    (h14 : env.validateOk = true) (h15 : env.buildPresOk = true)
    (h16 : env.writeOk = true)
    (hreq : env.parsedRequests = req :: lreq)
    (hresp : env.parsedResponses = resp :: lresp) :
    PEvent.revealRecv RecvReveal.withoutData ∈ (proverRun env).1 ∧
    (∀ h ∈ resp.headers,
      PEvent.revealRecv (RecvReveal.headerFull h.name h.value) ∈ (proverRun env).1) ∧
    (∀ b, resp.body = some b →
      PEvent.revealRecv (RecvReveal.body b) ∈ (proverRun env).1) := by
  have hrun := proverRun_pipeline env cc sg h1 h2 h3 h4 h5 h6 h7 h8 h9 hc hs
    h10 h11 h12 h13 h14
  have hstage : (stagePresent env).1 =
      (revealSentActions req (redactSetOf env.redactHeadersArg)).map PEvent.revealSent ++
        (revealRecvActions resp).map PEvent.revealRecv ++
        [PEvent.buildPresentation, PEvent.writeOutput, PEvent.printSummary] := by
    simp [stagePresent, hreq, hresp, h15, h16]
  have hmem : ∀ a : RecvReveal, a ∈ revealRecvActions resp →
      PEvent.revealRecv a ∈ (proverRun env).1 := by
    intro a ha
    rw [hrun]
    refine List.mem_append_right _ ?_
    rw [hstage]
    exact List.mem_append_left _
      (List.mem_append_right _ (List.mem_map_of_mem _ ha))
  refine ⟨hmem _ (by simp [revealRecvActions]), ?_, ?_⟩
  · intro h hh
    exact hmem _ (List.mem_cons_of_mem _
      (List.mem_append_left _ (List.mem_map.mpr ⟨h, hh, rfl⟩)))
  · intro b hb
    exact hmem _ (List.mem_cons_of_mem _
      (List.mem_append_right _ (by simp [hb])))

/-- C8 witness: in the all-successful concrete run, the response header
and the response body are revealed in full. -/
theorem response_revealed_fully_witness :
    PEvent.revealRecv RecvReveal.withoutData ∈ (proverRun baseOkEnv).1 ∧
    PEvent.revealRecv (RecvReveal.body ("oddsdata".toList)) ∈ (proverRun baseOkEnv).1 := by
  have h := response_revealed_fully baseOkEnv ("certbytes".toList) ("sigbytes".toList)
    reqA [] respA [] rfl rfl rfl rfl rfl rfl rfl rfl rfl rfl rfl rfl rfl rfl rfl rfl
    rfl rfl rfl rfl
  exact ⟨h.1, h.2.2 ("oddsdata".toList) rfl⟩
